import Mathlib

/-!
Shallow embedding of the analytics / record-access layer of the mining
operations backend (`app/services/mining.py`, `app/api/analytics.py`,
`app/tasks/mining_tasks.py`).

Modelling conventions:
* SQL `Float` columns are embedded as `ℚ`; `Integer` columns as `Int`;
  `Date` and `DateTime` columns as `Int` (day / timestamp ordinals, only
  their linear order matters).
* Nullable columns are `Option _`.  Columns that every write path supplies
  (the create schemas give them non-null defaults) are embedded non-null.
* SQL `SUM` / `AVG` over an empty row set yield `NULL`, embedded as
  `Option ℚ` via `sqlSum` / `sqlAvg`; Python's `x or 0.0` maps falsy
  values (`None`, `0.0`) to the default, which coincides with
  `Option.getD 0` here.
* `ORDER BY` is embedded with the stable `List.insertionSort`; SQL leaves
  the order of ties unspecified, the embedding fixes the stable choice.
  The app's engine is PostgreSQL (`app/db/database.py`), whose default
  null ordering for `ORDER BY expr DESC` is NULLS FIRST; `mining.py`
  uses plain `desc()` with no `nullslast()`, so `NULL` sum keys sort
  before every numeric key, embedded by `utilDescLE`.
* Python truthiness tests on filter arguments (`if shift_id:` etc.) are
  embedded by `truthyInt` / `truthyStr` / `truthyOptQ`.
-/

/-- Mining shift types (`ShiftType` enum). -/
inductive ShiftType where
  | day
  | night
  | morning
  | afternoon
deriving DecidableEq

/-- Equipment operational status (`EquipmentStatus` enum). -/
inductive EquipmentStatus where
  | operational
  | maintenance
  | repair
  | decommissioned
deriving DecidableEq

/-- Types of maintenance (`MaintenanceType` enum). -/
inductive MaintenanceType where
  | preventive
  | corrective
  | emergency
  | scheduled
deriving DecidableEq

/-- A row of the `mining_shifts` table (`MiningShift` model). -/
structure MiningShift where
  id : Int
  shift_date : Int
  shift_type : ShiftType
  mine_section : String
  supervisor_id : Option Int
  workers_count : Int
  start_time : Int
  end_time : Option Int
  notes : Option String
deriving DecidableEq

/-- A row of the `production_records` table (`ProductionRecord` model). -/
structure ProductionRecord where
  id : Int
  shift_id : Int
  equipment_id : Option Int
  ore_extracted_tonnes : ℚ
  waste_removed_tonnes : ℚ
  ore_grade_percentage : ℚ
  depth_meters : ℚ
  mining_level : Option String
  stope_number : Option String
  contamination_level : ℚ
  moisture_content : ℚ
  recorded_at : Int
  created_at : Int
deriving DecidableEq

/-- A row of the `equipment` table (`Equipment` model).
`status` and `operating_hours` are nullable in the table and the task code
guards against `None` in both, so they are embedded as `Option _`. -/
structure Equipment where
  id : Int
  equipment_code : String
  name : String
  equipment_type : String
  manufacturer : Option String
  model : Option String
  year_manufactured : Option Int
  status : Option EquipmentStatus
  capacity_tonnes : Option ℚ
  fuel_type : Option String
  operating_hours : Option ℚ
  current_location : Option String
  assigned_section : Option String
  commissioned_date : Option Int
  last_maintenance_date : Option Int
  next_maintenance_date : Option Int
deriving DecidableEq

/-- A row of the `maintenance_logs` table (`MaintenanceLog` model). -/
structure MaintenanceLog where
  id : Int
  equipment_id : Int
  maintenance_type : MaintenanceType
  description : String
  technician_name : Option String
  labor_hours : ℚ
  parts_cost : ℚ
  total_cost : ℚ
  parts_replaced : Option String
  is_completed : Bool
  scheduled_date : Option Int
  completed_date : Option Int
  created_at : Int
deriving DecidableEq

/-- The database state: the four mining tables. -/
structure DB where
  shifts : List MiningShift
  records : List ProductionRecord
  equipment : List Equipment
  logs : List MaintenanceLog
deriving DecidableEq

/-- SQL `SUM` over a column: `NULL` on an empty row set. -/
def sqlSum : List ℚ → Option ℚ
  | [] => none
  | l => some l.sum

/-- SQL `AVG` over a column: `NULL` on an empty row set. -/
def sqlAvg : List ℚ → Option ℚ
  | [] => none
  | l => some (l.sum / (l.length : ℚ))

/-- Python truthiness of an `Optional[int]`: `None` and `0` are falsy. -/
def truthyInt : Option Int → Bool
  | none => false
  | some i => decide (i ≠ 0)

/-- Python truthiness of an `Optional[str]`: `None` and `""` are falsy. -/
def truthyStr : Option String → Bool
  | none => false
  | some s => decide (s ≠ "")

/-- Python truthiness of an `Optional[float]`: `None` and `0.0` are falsy. -/
def truthyOptQ : Option ℚ → Bool
  | none => false
  | some x => decide (x ≠ 0)

/-- `MiningService.get_shifts`: WHERE filters (date truthiness = presence,
string truthiness skips `""`), ORDER BY `shift_date` DESC, OFFSET, LIMIT. -/
def get_shifts (db : DB) (skip limit : Nat)
    (start_date end_date : Option Int) (mine_section : Option String) :
    List MiningShift :=
  let q := db.shifts
  let q := match start_date with
    | some d => q.filter (fun s => decide (d ≤ s.shift_date))
    | none => q
  let q := match end_date with
    | some d => q.filter (fun s => decide (s.shift_date ≤ d))
    | none => q
  let q := if truthyStr mine_section then
      q.filter (fun s => decide (some s.mine_section = mine_section))
    else q
  ((List.insertionSort (fun a b => b.shift_date ≤ a.shift_date) q).drop skip).take limit

/-- `MiningService.get_production_records`: `if shift_id:` /
`if equipment_id:` truthiness filters, ORDER BY `recorded_at` DESC,
OFFSET, LIMIT. -/
def get_production_records (db : DB) (skip limit : Nat)
    (shift_id equipment_id : Option Int) : List ProductionRecord :=
  let q := db.records
  let q := if truthyInt shift_id then
      q.filter (fun r => decide (some r.shift_id = shift_id))
    else q
  let q := if truthyInt equipment_id then
      q.filter (fun r => decide (r.equipment_id = equipment_id))
    else q
  ((List.insertionSort (fun a b => b.recorded_at ≤ a.recorded_at) q).drop skip).take limit

/-- `MiningService.get_all_equipment`: status / type filters (enum members
and non-empty strings are truthy), ORDER BY `equipment_code`, OFFSET,
LIMIT. -/
def get_all_equipment (db : DB) (skip limit : Nat)
    (status : Option EquipmentStatus) (equipment_type : Option String) :
    List Equipment :=
  let q := db.equipment
  let q := match status with
    | some st => q.filter (fun e => decide (e.status = some st))
    | none => q
  let q := if truthyStr equipment_type then
      q.filter (fun e => decide (some e.equipment_type = equipment_type))
    else q
  ((List.insertionSort (fun a b => a.equipment_code ≤ b.equipment_code) q).drop skip).take limit

/-- `MiningService.get_maintenance_logs`: `if equipment_id:` truthiness
filter, `is_completed is not None` presence filter, ORDER BY `created_at`
DESC, OFFSET, LIMIT. -/
def get_maintenance_logs (db : DB) (skip limit : Nat)
    (equipment_id : Option Int) (is_completed : Option Bool) :
    List MaintenanceLog :=
  let q := db.logs
  let q := if truthyInt equipment_id then
      q.filter (fun l => decide (some l.equipment_id = equipment_id))
    else q
  let q := match is_completed with
    | some b => q.filter (fun l => decide (l.is_completed = b))
    | none => q
  ((List.insertionSort (fun a b => b.created_at ≤ a.created_at) q).drop skip).take limit

/-- `MiningShiftUpdate` pydantic schema under `exclude_unset` semantics:
outer `none` means the field was absent from the request.  For the
nullable columns `end_time` / `notes` the supplied value is itself
optional. -/
structure MiningShiftUpdate where
  shift_type : Option ShiftType
  mine_section : Option String
  workers_count : Option Int
  end_time : Option (Option Int)
  notes : Option (Option String)
deriving DecidableEq

/-- The `setattr` loop of `MiningService.update_shift`: each field present
in the request replaces the stored value, absent fields are not touched. -/
def applyShiftUpdate (s : MiningShift) (u : MiningShiftUpdate) : MiningShift :=
  { s with
    shift_type := u.shift_type.getD s.shift_type
    mine_section := u.mine_section.getD s.mine_section
    workers_count := u.workers_count.getD s.workers_count
    end_time := u.end_time.getD s.end_time
    notes := u.notes.getD s.notes }

/-- `query.filter(id == shift_id).first()` followed by the update: the
first row with the given id is patched, every other row is untouched. -/
def updateFirstShift : List MiningShift → Int → MiningShiftUpdate → List MiningShift
  | [], _, _ => []
  | s :: rest, i, u =>
    if s.id = i then applyShiftUpdate s u :: rest
    else s :: updateFirstShift rest i u

/-- `MiningService.update_shift` acting on the database state. -/
def update_shift (db : DB) (shift_id : Int) (u : MiningShiftUpdate) : DB :=
  { db with shifts := updateFirstShift db.shifts shift_id u }

/-- `EquipmentUpdate` pydantic schema under `exclude_unset` semantics. -/
structure EquipmentUpdate where
  name : Option String
  status : Option (Option EquipmentStatus)
  current_location : Option (Option String)
  assigned_section : Option (Option String)
  operating_hours : Option (Option ℚ)
  last_maintenance_date : Option (Option Int)
  next_maintenance_date : Option (Option Int)
deriving DecidableEq

/-- The `setattr` loop of `MiningService.update_equipment`. -/
def applyEquipmentUpdate (e : Equipment) (u : EquipmentUpdate) : Equipment :=
  { e with
    name := u.name.getD e.name
    status := u.status.getD e.status
    current_location := u.current_location.getD e.current_location
    assigned_section := u.assigned_section.getD e.assigned_section
    operating_hours := u.operating_hours.getD e.operating_hours
    last_maintenance_date := u.last_maintenance_date.getD e.last_maintenance_date
    next_maintenance_date := u.next_maintenance_date.getD e.next_maintenance_date }

/-- First-match update for the equipment table. -/
def updateFirstEquipment : List Equipment → Int → EquipmentUpdate → List Equipment
  | [], _, _ => []
  | e :: rest, i, u =>
    if e.id = i then applyEquipmentUpdate e u :: rest
    else e :: updateFirstEquipment rest i u

/-- `MiningService.update_equipment` acting on the database state. -/
def update_equipment (db : DB) (equipment_id : Int) (u : EquipmentUpdate) : DB :=
  { db with equipment := updateFirstEquipment db.equipment equipment_id u }

/-- `ProductionRecordUpdate` pydantic schema under `exclude_unset`
semantics. -/
structure ProductionRecordUpdate where
  ore_extracted_tonnes : Option ℚ
  waste_removed_tonnes : Option ℚ
  ore_grade_percentage : Option ℚ
  depth_meters : Option ℚ
  mining_level : Option (Option String)
  stope_number : Option (Option String)
deriving DecidableEq

/-- The `setattr` loop of `MiningService.update_production_record`. -/
def applyRecordUpdate (r : ProductionRecord) (u : ProductionRecordUpdate) :
    ProductionRecord :=
  { r with
    ore_extracted_tonnes := u.ore_extracted_tonnes.getD r.ore_extracted_tonnes
    waste_removed_tonnes := u.waste_removed_tonnes.getD r.waste_removed_tonnes
    ore_grade_percentage := u.ore_grade_percentage.getD r.ore_grade_percentage
    depth_meters := u.depth_meters.getD r.depth_meters
    mining_level := u.mining_level.getD r.mining_level
    stope_number := u.stope_number.getD r.stope_number }

/-- First-match update for the production-record table. -/
def updateFirstRecord : List ProductionRecord → Int → ProductionRecordUpdate
    → List ProductionRecord
  | [], _, _ => []
  | r :: rest, i, u =>
    if r.id = i then applyRecordUpdate r u :: rest
    else r :: updateFirstRecord rest i u

/-- `MiningService.update_production_record` acting on the database
state. -/
def update_production_record (db : DB) (record_id : Int)
    (u : ProductionRecordUpdate) : DB :=
  { db with records := updateFirstRecord db.records record_id u }

/-- `MaintenanceLogUpdate` pydantic schema under `exclude_unset`
semantics. -/
structure MaintenanceLogUpdate where
  description : Option String
  technician_name : Option (Option String)
  labor_hours : Option ℚ
  parts_cost : Option ℚ
  total_cost : Option ℚ
  parts_replaced : Option (Option String)
  is_completed : Option Bool
  completed_date : Option (Option Int)
deriving DecidableEq

/-- The `setattr` loop of `MiningService.update_maintenance_log`. -/
def applyLogUpdate (l : MaintenanceLog) (u : MaintenanceLogUpdate) :
    MaintenanceLog :=
  { l with
    description := u.description.getD l.description
    technician_name := u.technician_name.getD l.technician_name
    labor_hours := u.labor_hours.getD l.labor_hours
    parts_cost := u.parts_cost.getD l.parts_cost
    total_cost := u.total_cost.getD l.total_cost
    parts_replaced := u.parts_replaced.getD l.parts_replaced
    is_completed := u.is_completed.getD l.is_completed
    completed_date := u.completed_date.getD l.completed_date }

/-- First-match update for the maintenance-log table. -/
def updateFirstLog : List MaintenanceLog → Int → MaintenanceLogUpdate
    → List MaintenanceLog
  | [], _, _ => []
  | l :: rest, i, u =>
    if l.id = i then applyLogUpdate l u :: rest
    else l :: updateFirstLog rest i u

/-- `MiningService.update_maintenance_log` acting on the database
state. -/
def update_maintenance_log (db : DB) (log_id : Int)
    (u : MaintenanceLogUpdate) : DB :=
  { db with logs := updateFirstLog db.logs log_id u }

/-- The result shape of `get_production_stats` (`ProductionStats` schema). -/
structure ProductionStats where
  total_ore_extracted : ℚ
  total_waste_removed : ℚ
  average_ore_grade : ℚ
  total_shifts : Nat
  average_workers_per_shift : ℚ
  period_start : Int
  period_end : Int
deriving DecidableEq

/-- Inner join `ProductionRecord ⋈ MiningShift` on
`ProductionRecord.shift_id == MiningShift.id`. -/
def joinRecordsShifts (db : DB) : List (ProductionRecord × MiningShift) :=
  db.records.flatMap (fun r =>
    (db.shifts.filter (fun s => decide (r.shift_id = s.id))).map (fun s => (r, s)))

/-- The join restricted to `start_date ≤ shift_date ≤ end_date`. -/
def prodJoinInRange (db : DB) (a b : Int) : List (ProductionRecord × MiningShift) :=
  (joinRecordsShifts db).filter
    (fun p => decide (a ≤ p.2.shift_date) && decide (p.2.shift_date ≤ b))

/-- `MiningService.get_production_stats`: the joined production-side
aggregates, the independent shift-side aggregates, and the `or 0.0`
defaults on every nullable aggregate. -/
def get_production_stats (db : DB) (start_date end_date : Int) : ProductionStats :=
  let joined := prodJoinInRange db start_date end_date
  let total_ore := sqlSum (joined.map (fun p => p.1.ore_extracted_tonnes))
  let total_waste := sqlSum (joined.map (fun p => p.1.waste_removed_tonnes))
  let avg_grade := sqlAvg (joined.map (fun p => p.1.ore_grade_percentage))
  let shiftsIn := db.shifts.filter
    (fun s => decide (start_date ≤ s.shift_date) && decide (s.shift_date ≤ end_date))
  let avg_workers := sqlAvg (shiftsIn.map (fun s => (s.workers_count : ℚ)))
  { total_ore_extracted := total_ore.getD 0
    total_waste_removed := total_waste.getD 0
    average_ore_grade := avg_grade.getD 0
    total_shifts := shiftsIn.length
    average_workers_per_shift := avg_workers.getD 0
    period_start := start_date
    period_end := end_date }

/-- The result shape of `get_daily_production` (`DailyProduction` schema). -/
structure DailyProduction where
  date : Int
  total_ore : ℚ
  total_waste : ℚ
  shift_count : Nat
  equipment_used : Nat
deriving DecidableEq

/-- The GROUP BY keys of `get_daily_production`: the distinct shift dates
of the in-range joined rows, ORDER BY date ascending. -/
def dailyDates (db : DB) (a b : Int) : List Int :=
  List.insertionSort (fun x y => x ≤ y)
    (((prodJoinInRange db a b).map (fun p => p.2.shift_date)).dedup)

/-- One GROUP BY group of `get_daily_production`: the in-range joined rows
of a given shift date. -/
def dailyGroup (db : DB) (a b : Int) (d : Int) : List (ProductionRecord × MiningShift) :=
  (prodJoinInRange db a b).filter (fun p => decide (p.2.shift_date = d))

/-- `MiningService.get_daily_production`: GROUP BY `shift_date` with
`SUM`, `COUNT(DISTINCT shift id)`, `COUNT(DISTINCT equipment_id)` (which
skips `NULL`s), ordered by date, with the `or 0` defaults. -/
def get_daily_production (db : DB) (a b : Int) : List DailyProduction :=
  (dailyDates db a b).map (fun d =>
    let g := dailyGroup db a b d
    { date := d
      total_ore := (sqlSum (g.map (fun p => p.1.ore_extracted_tonnes))).getD 0
      total_waste := (sqlSum (g.map (fun p => p.1.waste_removed_tonnes))).getD 0
      shift_count := ((g.map (fun p => p.2.id)).dedup).length
      equipment_used := ((g.filterMap (fun p => p.1.equipment_id)).dedup).length })

/-- One output row of `get_equipment_utilization`. -/
structure UtilRow where
  equipment_code : String
  name : String
  equipment_type : String
  status : Option EquipmentStatus
  total_production_records : Nat
  total_ore_extracted : ℚ
deriving DecidableEq

/-- The outer-join group of one equipment row: the production records
referencing it (an equipment with none contributes a single all-`NULL`
joined row, i.e. the empty group). -/
def equipGroup (db : DB) (e : Equipment) : List ProductionRecord :=
  db.records.filter (fun r => decide (r.equipment_id = some e.id))

/-- The GROUP BY `Equipment.id` rows of the utilization query, keyed with
the SQL `SUM(ore_extracted_tonnes)` used by the ORDER BY. -/
def utilKeyed (db : DB) : List (Option ℚ × UtilRow) :=
  db.equipment.map (fun e =>
    let g := equipGroup db e
    let total_ore := sqlSum (g.map (fun r => r.ore_extracted_tonnes))
    (total_ore,
      { equipment_code := e.equipment_code
        name := e.name
        equipment_type := e.equipment_type
        status := e.status
        total_production_records := g.length
        total_ore_extracted := total_ore.getD 0 }))

/-- PostgreSQL `ORDER BY key DESC` (the app engine, with plain `desc()`
and no `nullslast()` at `mining.py:337`): the default null ordering is
NULLS FIRST, so a `NULL` key sorts before every numeric key, and numeric
keys sort descending. -/
def utilDescLE : Option ℚ → Option ℚ → Prop
  | none, _ => True
  | some _, none => False
  | some u, some v => v ≤ u

instance : DecidableRel utilDescLE := fun x y =>
  match x, y with
  | none, none => isTrue trivial
  | none, some _ => isTrue trivial
  | some _, none => isFalse id
  | some u, some v => inferInstanceAs (Decidable (v ≤ u))

/-- The ORDER BY comparison of the utilization query lifted to the keyed
rows. -/
def utilKeyLE (p q : Option ℚ × UtilRow) : Prop := utilDescLE p.1 q.1

instance : DecidableRel utilKeyLE := fun p q =>
  inferInstanceAs (Decidable (utilDescLE p.1 q.1))

instance : IsTotal (Option ℚ × UtilRow) utilKeyLE := by
  constructor
  intro ⟨a1, a2⟩ ⟨b1, b2⟩
  unfold utilKeyLE
  match a1, b1 with
  | none, none => exact Or.inl trivial
  | none, some v => exact Or.inl trivial
  | some u, none => exact Or.inr trivial
  | some u, some v =>
    rcases le_total v u with h | h
    · exact Or.inl h
    · exact Or.inr h

instance : IsTrans (Option ℚ × UtilRow) utilKeyLE := by
  constructor
  intro ⟨a1, a2⟩ ⟨b1, b2⟩ ⟨c1, c2⟩ hab hbc
  unfold utilKeyLE at *
  match a1, b1, c1, hab, hbc with
  | none, none, none, _, _ => exact trivial
  | none, none, some _, _, _ => exact trivial
  | none, some _, none, _, _ => exact trivial
  | none, some _, some _, _, _ => exact trivial
  | some _, none, _, hab, _ => exact hab.elim
  | some _, some _, none, _, hbc => exact hbc.elim
  | some u, some v, some w, hab, hbc => exact le_trans hbc hab

/-- `MiningService.get_equipment_utilization`: outer join, GROUP BY
equipment id, ORDER BY summed ore DESC. -/
def get_equipment_utilization (db : DB) : List UtilRow :=
  (List.insertionSort utilKeyLE (utilKeyed db)).map (fun p => p.2)

/-- The `pending_maintenance` field of the `/summary` endpoint
(`analytics.get_summary`): the length of the incomplete maintenance logs
fetched with `skip=0, limit=5, is_completed=False`. -/
def summary_pending_maintenance (db : DB) : Nat :=
  (get_maintenance_logs db 0 5 none (some false)).length

/-- The number of incomplete maintenance log rows in the database. -/
def incompleteLogCount (db : DB) : Nat :=
  (db.logs.filter (fun l => decide (l.is_completed = false))).length

/-- One output row of `calculate_equipment_metrics`. -/
structure EquipMetric where
  equipment_id : Int
  equipment_code : String
  name : String
  status : Option EquipmentStatus
  operating_hours : ℚ
  total_production_records : Nat
  total_ore_extracted : ℚ
  efficiency_tonnes_per_hour : ℚ
deriving DecidableEq

/-- Python `round(x, 2)` modelled as rounding to two decimal places (the
half-even tie behaviour of floats differs only at exact half-ulp ties,
which the claims do not touch). -/
def round2 (q : ℚ) : ℚ := ((round (q * 100) : ℤ) : ℚ) / 100

/-- `mining_tasks.calculate_equipment_metrics`: the same outer-join
grouping as utilization plus the guarded efficiency derivation
`if r.operating_hours and r.operating_hours > 0 and r.total_ore:`. -/
def calculate_equipment_metrics (db : DB) : List EquipMetric :=
  db.equipment.map (fun e =>
    let g := equipGroup db e
    let total_ore := sqlSum (g.map (fun r => r.ore_extracted_tonnes))
    let efficiency : ℚ :=
      if truthyOptQ e.operating_hours
          && decide ((0 : ℚ) < e.operating_hours.getD 0)
          && truthyOptQ total_ore then
        round2 (total_ore.getD 0 / e.operating_hours.getD 0)
      else 0
    { equipment_id := e.id
      equipment_code := e.equipment_code
      name := e.name
      status := e.status
      operating_hours := e.operating_hours.getD 0
      total_production_records := g.length
      total_ore_extracted := total_ore.getD 0
      efficiency_tonnes_per_hour := efficiency })

/-- A production record has an in-range parent shift: some shift row
carries its `shift_id` and a date inside `[a, b]`. -/
def parentShiftInRange (db : DB) (a b : Int) (r : ProductionRecord) : Bool :=
  db.shifts.any (fun s =>
    (decide (a ≤ s.shift_date) && decide (s.shift_date ≤ b)) && decide (r.shift_id = s.id))

/-- A sample shift row used for concrete evaluation. -/
def mkShift (i d : Int) : MiningShift :=
  { id := i, shift_date := d, shift_type := ShiftType.day, mine_section := "A",
    supervisor_id := none, workers_count := 10, start_time := 0,
    end_time := none, notes := none }

/-- A sample production record row used for concrete evaluation. -/
def mkRecord (i sid : Int) (eq : Option Int) (ore : ℚ) (t : Int) : ProductionRecord :=
  { id := i, shift_id := sid, equipment_id := eq,
    ore_extracted_tonnes := ore, waste_removed_tonnes := 1,
    ore_grade_percentage := 2, depth_meters := 0,
    mining_level := none, stope_number := none,
    contamination_level := 0, moisture_content := 0,
    recorded_at := t, created_at := t }

/-- A sample equipment row used for concrete evaluation. -/
def mkEquip (i : Int) (code : String) (oh : Option ℚ) : Equipment :=
  { id := i, equipment_code := code, name := code, equipment_type := "truck",
    manufacturer := none, model := none, year_manufactured := none,
    status := some EquipmentStatus.operational, capacity_tonnes := none,
    fuel_type := none, operating_hours := oh, current_location := none,
    assigned_section := none, commissioned_date := none,
    last_maintenance_date := none, next_maintenance_date := none }

/-- A sample maintenance log row used for concrete evaluation. -/
def mkLog (i : Int) (done : Bool) : MaintenanceLog :=
  { id := i, equipment_id := 1, maintenance_type := MaintenanceType.preventive,
    description := "check", technician_name := none,
    labor_hours := 0, parts_cost := 0, total_cost := 0, parts_replaced := none,
    is_completed := done, scheduled_date := none, completed_date := none,
    created_at := i }

/-- A concrete database state: two shifts (one inside, one outside the
range `[0, 15]`), three production records on shift 1 (two on equipment 1,
one with no equipment), two equipment rows (equipment 2 unused), and six
incomplete maintenance logs. -/
def exDB : DB :=
  { shifts := [mkShift 1 10, mkShift 2 20]
    records := [mkRecord 1 1 (some 1) 10 5, mkRecord 2 1 (some 1) (11/2) 4,
                mkRecord 3 1 none 2 3]
    equipment := [mkEquip 1 "EQ-1" (some 2), mkEquip 2 "EQ-2" none]
    logs := [mkLog 1 false, mkLog 2 false, mkLog 3 false, mkLog 4 false,
             mkLog 5 false, mkLog 6 false] }

/-- A concrete partial shift update: only `mine_section` and `end_time`
are present in the request. -/
def exShiftU : MiningShiftUpdate :=
  { shift_type := none, mine_section := some "B", workers_count := none,
    end_time := some (some 99), notes := none }

/-- A concrete partial equipment update: only `status` is present. -/
def exEquipU : EquipmentUpdate :=
  { name := none, status := some (some EquipmentStatus.repair),
    current_location := none, assigned_section := none,
    operating_hours := none, last_maintenance_date := none,
    next_maintenance_date := none }

/-- A concrete partial production-record update: only the ore figure is
present. -/
def exRecU : ProductionRecordUpdate :=
  { ore_extracted_tonnes := some 3, waste_removed_tonnes := none,
    ore_grade_percentage := none, depth_meters := none,
    mining_level := none, stope_number := none }

/-- A concrete partial maintenance-log update: only the completion flag
and date are present. -/
def exLogU : MaintenanceLogUpdate :=
  { description := none, technician_name := none, labor_hours := none,
    parts_cost := none, total_cost := none, parts_replaced := none,
    is_completed := some true, completed_date := some (some 50) }

/-- A production record whose float metrics are all zero, so concrete
evaluations stay within simp-normalizable rational arithmetic. -/
def mkRecord0 (i sid : Int) (eq : Option Int) : ProductionRecord :=
  { id := i, shift_id := sid, equipment_id := eq,
    ore_extracted_tonnes := 0, waste_removed_tonnes := 0,
    ore_grade_percentage := 0, depth_meters := 0,
    mining_level := none, stope_number := none,
    contamination_level := 0, moisture_content := 0,
    recorded_at := 0, created_at := 0 }

/-- A concrete database for the rollup example: one shift on date 10 with
two records referencing equipment 1 and one record with no equipment. -/
def exDB7 : DB :=
  { shifts := [mkShift 1 10]
    records := [mkRecord0 1 1 (some 1), mkRecord0 2 1 (some 1), mkRecord0 3 1 none]
    equipment := []
    logs := [] }

/-- A concrete database with no production records but two equipment
rows, for the equipment-metrics example. -/
def exDB2 : DB :=
  { shifts := [], records := []
    equipment := [mkEquip 1 "EQ-1" (some 2), mkEquip 2 "EQ-2" none]
    logs := [] }

/-- A concrete database exposing the NULLS FIRST ordering: equipment 1
has one record of 1.0 tonnes, equipment 2 has no records. -/
def exDBc2 : DB :=
  { shifts := [mkShift 1 10]
    records := [mkRecord 9 1 (some 1) 1 0]
    equipment := [mkEquip 1 "EQ-1" none, mkEquip 2 "EQ-2" none]
    logs := [] }

/-- The utilization row reported for the record-free equipment 2 of
`exDBc2`. -/
def exRow2 : UtilRow :=
  { equipment_code := "EQ-2", name := "EQ-2", equipment_type := "truck"
    status := some EquipmentStatus.operational
    total_production_records := 0, total_ore_extracted := 0 }

/-- The partial-update contract for one shift row: every field present in
the request is set to the supplied value, every absent field keeps its
previous value, and the fields the update schema does not expose are
always untouched. -/
def shiftPatchOK (u : MiningShiftUpdate) (s₀ s₁ : MiningShift) : Prop :=
  (u.shift_type = none → s₁.shift_type = s₀.shift_type)
  ∧ (∀ x, u.shift_type = some x → s₁.shift_type = x)
  ∧ (u.mine_section = none → s₁.mine_section = s₀.mine_section)
  ∧ (∀ x, u.mine_section = some x → s₁.mine_section = x)
  ∧ (u.workers_count = none → s₁.workers_count = s₀.workers_count)
  ∧ (∀ x, u.workers_count = some x → s₁.workers_count = x)
  ∧ (u.end_time = none → s₁.end_time = s₀.end_time)
  ∧ (∀ x, u.end_time = some x → s₁.end_time = x)
  ∧ (u.notes = none → s₁.notes = s₀.notes)
  ∧ (∀ x, u.notes = some x → s₁.notes = x)
  ∧ s₁.id = s₀.id ∧ s₁.shift_date = s₀.shift_date
  ∧ s₁.supervisor_id = s₀.supervisor_id ∧ s₁.start_time = s₀.start_time

/-- The partial-update contract for one equipment row. -/
def equipPatchOK (u : EquipmentUpdate) (e₀ e₁ : Equipment) : Prop :=
  (u.name = none → e₁.name = e₀.name)
  ∧ (∀ x, u.name = some x → e₁.name = x)
  ∧ (u.status = none → e₁.status = e₀.status)
  ∧ (∀ x, u.status = some x → e₁.status = x)
  ∧ (u.current_location = none → e₁.current_location = e₀.current_location)
  ∧ (∀ x, u.current_location = some x → e₁.current_location = x)
  ∧ (u.assigned_section = none → e₁.assigned_section = e₀.assigned_section)
  ∧ (∀ x, u.assigned_section = some x → e₁.assigned_section = x)
  ∧ (u.operating_hours = none → e₁.operating_hours = e₀.operating_hours)
  ∧ (∀ x, u.operating_hours = some x → e₁.operating_hours = x)
  ∧ (u.last_maintenance_date = none → e₁.last_maintenance_date = e₀.last_maintenance_date)
  ∧ (∀ x, u.last_maintenance_date = some x → e₁.last_maintenance_date = x)
  ∧ (u.next_maintenance_date = none → e₁.next_maintenance_date = e₀.next_maintenance_date)
  ∧ (∀ x, u.next_maintenance_date = some x → e₁.next_maintenance_date = x)
  ∧ e₁.id = e₀.id ∧ e₁.equipment_code = e₀.equipment_code
  ∧ e₁.equipment_type = e₀.equipment_type ∧ e₁.manufacturer = e₀.manufacturer
  ∧ e₁.model = e₀.model ∧ e₁.year_manufactured = e₀.year_manufactured
  ∧ e₁.capacity_tonnes = e₀.capacity_tonnes ∧ e₁.fuel_type = e₀.fuel_type
  ∧ e₁.commissioned_date = e₀.commissioned_date

/-- The partial-update contract for one production-record row. -/
def recordPatchOK (u : ProductionRecordUpdate) (r₀ r₁ : ProductionRecord) : Prop :=
  (u.ore_extracted_tonnes = none → r₁.ore_extracted_tonnes = r₀.ore_extracted_tonnes)
  ∧ (∀ x, u.ore_extracted_tonnes = some x → r₁.ore_extracted_tonnes = x)
  ∧ (u.waste_removed_tonnes = none → r₁.waste_removed_tonnes = r₀.waste_removed_tonnes)
  ∧ (∀ x, u.waste_removed_tonnes = some x → r₁.waste_removed_tonnes = x)
  ∧ (u.ore_grade_percentage = none → r₁.ore_grade_percentage = r₀.ore_grade_percentage)
  ∧ (∀ x, u.ore_grade_percentage = some x → r₁.ore_grade_percentage = x)
  ∧ (u.depth_meters = none → r₁.depth_meters = r₀.depth_meters)
  ∧ (∀ x, u.depth_meters = some x → r₁.depth_meters = x)
  ∧ (u.mining_level = none → r₁.mining_level = r₀.mining_level)
  ∧ (∀ x, u.mining_level = some x → r₁.mining_level = x)
  ∧ (u.stope_number = none → r₁.stope_number = r₀.stope_number)
  ∧ (∀ x, u.stope_number = some x → r₁.stope_number = x)
  ∧ r₁.id = r₀.id ∧ r₁.shift_id = r₀.shift_id
  ∧ r₁.equipment_id = r₀.equipment_id
  ∧ r₁.contamination_level = r₀.contamination_level
  ∧ r₁.moisture_content = r₀.moisture_content
  ∧ r₁.recorded_at = r₀.recorded_at ∧ r₁.created_at = r₀.created_at

/-- The partial-update contract for one maintenance-log row. -/
def logPatchOK (u : MaintenanceLogUpdate) (l₀ l₁ : MaintenanceLog) : Prop :=
  (u.description = none → l₁.description = l₀.description)
  ∧ (∀ x, u.description = some x → l₁.description = x)
  ∧ (u.technician_name = none → l₁.technician_name = l₀.technician_name)
  ∧ (∀ x, u.technician_name = some x → l₁.technician_name = x)
  ∧ (u.labor_hours = none → l₁.labor_hours = l₀.labor_hours)
  ∧ (∀ x, u.labor_hours = some x → l₁.labor_hours = x)
  ∧ (u.parts_cost = none → l₁.parts_cost = l₀.parts_cost)
  ∧ (∀ x, u.parts_cost = some x → l₁.parts_cost = x)
  ∧ (u.total_cost = none → l₁.total_cost = l₀.total_cost)
  ∧ (∀ x, u.total_cost = some x → l₁.total_cost = x)
  ∧ (u.parts_replaced = none → l₁.parts_replaced = l₀.parts_replaced)
  ∧ (∀ x, u.parts_replaced = some x → l₁.parts_replaced = x)
  ∧ (u.is_completed = none → l₁.is_completed = l₀.is_completed)
  ∧ (∀ x, u.is_completed = some x → l₁.is_completed = x)
  ∧ (u.completed_date = none → l₁.completed_date = l₀.completed_date)
  ∧ (∀ x, u.completed_date = some x → l₁.completed_date = x)
  ∧ l₁.id = l₀.id ∧ l₁.equipment_id = l₀.equipment_id
  ∧ l₁.maintenance_type = l₀.maintenance_type
  ∧ l₁.scheduled_date = l₀.scheduled_date ∧ l₁.created_at = l₀.created_at

/-! ### Basic lemmas about the SQL aggregate embedding -/

theorem sqlSum_getD (l : List ℚ) : (sqlSum l).getD 0 = l.sum := by
  cases l <;> rfl

theorem sqlSum_getD_nonneg (l : List ℚ) (h : ∀ x ∈ l, 0 ≤ x) :
    0 ≤ (sqlSum l).getD 0 := by
  cases l with
  | nil => simp [sqlSum]
  | cons a t => simpa [sqlSum] using List.sum_nonneg h

/-! ### Theorems for the claims -/

/-- C10: passing `shift_id = 0` or `equipment_id = 0` to
`get_production_records` applies no filter for that argument (Python
truthiness treats `0` like `None`), and the same skipping applies to the
other falsy filter arguments of the listing operations (`mine_section`
and `equipment_type` as the empty string, `equipment_id = 0` on the
maintenance-log listing). -/
theorem falsy_filter_args_skipped (db : DB) (skip limit : Nat)
    (sid eid : Option Int) (icomp : Option Bool) :
    get_production_records db skip limit (some 0) eid
      = get_production_records db skip limit none eid
    ∧ get_production_records db skip limit sid (some 0)
      = get_production_records db skip limit sid none
    ∧ get_shifts db skip limit none none (some "")
      = get_shifts db skip limit none none none
    ∧ get_maintenance_logs db skip limit (some 0) icomp
      = get_maintenance_logs db skip limit none icomp
    ∧ get_all_equipment db skip limit none (some "")
      = get_all_equipment db skip limit none none := by
  exact ⟨rfl, rfl, rfl, rfl, rfl⟩

/-- C3 counterexample: with six incomplete maintenance logs, the summary
endpoint reports `pending_maintenance = 5`, not the total count `6`,
because it measures a list fetched with `limit=5`. -/
theorem summary_pending_maintenance_cex :
    ¬ (summary_pending_maintenance exDB = incompleteLogCount exDB) := by
  decide

/-- C3 amended: `pending_maintenance` equals the number of incomplete
MaintenanceLog rows capped at 5 (the summary fetches at most 5 logs). -/
theorem summary_pending_maintenance_eq_min (db : DB) :
    summary_pending_maintenance db = min (incompleteLogCount db) 5 := by
  unfold summary_pending_maintenance get_maintenance_logs incompleteLogCount truthyInt
  simp [List.length_take, List.drop_zero, List.length_insertionSort, Nat.min_comm]

theorem applyShiftUpdate_ok (s : MiningShift) (u : MiningShiftUpdate) :
    shiftPatchOK u s (applyShiftUpdate s u) := by
  unfold shiftPatchOK
  refine ⟨?_, ?_, ?_, ?_, ?_, ?_, ?_, ?_, ?_, ?_, rfl, rfl, rfl, rfl⟩ <;>
    first
      | (intro h; simp [applyShiftUpdate, h])
      | (intro x h; simp [applyShiftUpdate, h])

theorem applyEquipmentUpdate_ok (e : Equipment) (u : EquipmentUpdate) :
    equipPatchOK u e (applyEquipmentUpdate e u) := by
  unfold equipPatchOK
  refine ⟨?_, ?_, ?_, ?_, ?_, ?_, ?_, ?_, ?_, ?_, ?_, ?_, ?_, ?_,
    rfl, rfl, rfl, rfl, rfl, rfl, rfl, rfl, rfl⟩ <;>
    first
      | (intro h; simp [applyEquipmentUpdate, h])
      | (intro x h; simp [applyEquipmentUpdate, h])

theorem updateFirstShift_forall₂ (i : Int) (u : MiningShiftUpdate)
    (l : List MiningShift) :
    List.Forall₂ (fun s₀ s₁ => s₁ = s₀ ∨ (s₀.id = i ∧ shiftPatchOK u s₀ s₁))
      l (updateFirstShift l i u) := by
  induction l with
  | nil => exact List.Forall₂.nil
  | cons s rest ih =>
    unfold updateFirstShift
    by_cases h : s.id = i
    · rw [if_pos h]
      exact List.Forall₂.cons (Or.inr ⟨h, applyShiftUpdate_ok s u⟩)
        (List.forall₂_same.mpr (fun x _ => Or.inl rfl))
    · rw [if_neg h]
      exact List.Forall₂.cons (Or.inl rfl) ih

theorem updateFirstEquipment_forall₂ (i : Int) (u : EquipmentUpdate)
    (l : List Equipment) :
    List.Forall₂ (fun e₀ e₁ => e₁ = e₀ ∨ (e₀.id = i ∧ equipPatchOK u e₀ e₁))
      l (updateFirstEquipment l i u) := by
  induction l with
  | nil => exact List.Forall₂.nil
  | cons e rest ih =>
    unfold updateFirstEquipment
    by_cases h : e.id = i
    · rw [if_pos h]
      exact List.Forall₂.cons (Or.inr ⟨h, applyEquipmentUpdate_ok e u⟩)
        (List.forall₂_same.mpr (fun x _ => Or.inl rfl))
    · rw [if_neg h]
      exact List.Forall₂.cons (Or.inl rfl) ih

theorem updateFirstShift_find (i : Int) (u : MiningShiftUpdate)
    (l : List MiningShift) (s₀ : MiningShift)
    (h : l.find? (fun s => decide (s.id = i)) = some s₀) :
    applyShiftUpdate s₀ u ∈ updateFirstShift l i u := by
  induction l with
  | nil => simp [List.find?] at h
  | cons s rest ih =>
    by_cases hs : s.id = i
    · have hfind : List.find? (fun t => decide (t.id = i)) (s :: rest) = some s :=
        List.find?_cons_of_pos _ (decide_eq_true hs)
      rw [hfind] at h
      obtain rfl : s = s₀ := by injection h
      unfold updateFirstShift
      rw [if_pos hs]
      exact List.mem_cons_self _ _
    · have hfind : List.find? (fun t => decide (t.id = i)) (s :: rest)
          = List.find? (fun t => decide (t.id = i)) rest :=
        List.find?_cons_of_neg _ (by simpa using hs)
      rw [hfind] at h
      unfold updateFirstShift
      rw [if_neg hs]
      exact List.mem_cons_of_mem _ (ih h)

theorem updateFirstEquipment_find (i : Int) (u : EquipmentUpdate)
    (l : List Equipment) (e₀ : Equipment)
    (h : l.find? (fun e => decide (e.id = i)) = some e₀) :
    applyEquipmentUpdate e₀ u ∈ updateFirstEquipment l i u := by
  induction l with
  | nil => simp [List.find?] at h
  | cons e rest ih =>
    by_cases hs : e.id = i
    · have hfind : List.find? (fun t => decide (t.id = i)) (e :: rest) = some e :=
        List.find?_cons_of_pos _ (decide_eq_true hs)
      rw [hfind] at h
      obtain rfl : e = e₀ := by injection h
      unfold updateFirstEquipment
      rw [if_pos hs]
      exact List.mem_cons_self _ _
    · have hfind : List.find? (fun t => decide (t.id = i)) (e :: rest)
          = List.find? (fun t => decide (t.id = i)) rest :=
        List.find?_cons_of_neg _ (by simpa using hs)
      rw [hfind] at h
      unfold updateFirstEquipment
      rw [if_neg hs]
      exact List.mem_cons_of_mem _ (ih h)

theorem applyRecordUpdate_ok (r : ProductionRecord) (u : ProductionRecordUpdate) :
    recordPatchOK u r (applyRecordUpdate r u) := by
  unfold recordPatchOK
  refine ⟨?_, ?_, ?_, ?_, ?_, ?_, ?_, ?_, ?_, ?_, ?_, ?_,
    rfl, rfl, rfl, rfl, rfl, rfl, rfl⟩ <;>
    first
      | (intro h; simp [applyRecordUpdate, h])
      | (intro x h; simp [applyRecordUpdate, h])

theorem applyLogUpdate_ok (l : MaintenanceLog) (u : MaintenanceLogUpdate) :
    logPatchOK u l (applyLogUpdate l u) := by
  unfold logPatchOK
  refine ⟨?_, ?_, ?_, ?_, ?_, ?_, ?_, ?_, ?_, ?_, ?_, ?_, ?_, ?_, ?_, ?_,
    rfl, rfl, rfl, rfl, rfl⟩ <;>
    first
      | (intro h; simp [applyLogUpdate, h])
      | (intro x h; simp [applyLogUpdate, h])

theorem updateFirstRecord_forall₂ (i : Int) (u : ProductionRecordUpdate)
    (l : List ProductionRecord) :
    List.Forall₂ (fun r₀ r₁ => r₁ = r₀ ∨ (r₀.id = i ∧ recordPatchOK u r₀ r₁))
      l (updateFirstRecord l i u) := by
  induction l with
  | nil => exact List.Forall₂.nil
  | cons r rest ih =>
    unfold updateFirstRecord
    by_cases h : r.id = i
    · rw [if_pos h]
      exact List.Forall₂.cons (Or.inr ⟨h, applyRecordUpdate_ok r u⟩)
        (List.forall₂_same.mpr (fun x _ => Or.inl rfl))
    · rw [if_neg h]
      exact List.Forall₂.cons (Or.inl rfl) ih

theorem updateFirstLog_forall₂ (i : Int) (u : MaintenanceLogUpdate)
    (l : List MaintenanceLog) :
    List.Forall₂ (fun l₀ l₁ => l₁ = l₀ ∨ (l₀.id = i ∧ logPatchOK u l₀ l₁))
      l (updateFirstLog l i u) := by
  induction l with
  | nil => exact List.Forall₂.nil
  | cons g rest ih =>
    unfold updateFirstLog
    by_cases h : g.id = i
    · rw [if_pos h]
      exact List.Forall₂.cons (Or.inr ⟨h, applyLogUpdate_ok g u⟩)
        (List.forall₂_same.mpr (fun x _ => Or.inl rfl))
    · rw [if_neg h]
      exact List.Forall₂.cons (Or.inl rfl) ih

theorem updateFirstRecord_find (i : Int) (u : ProductionRecordUpdate)
    (l : List ProductionRecord) (r₀ : ProductionRecord)
    (h : l.find? (fun r => decide (r.id = i)) = some r₀) :
    applyRecordUpdate r₀ u ∈ updateFirstRecord l i u := by
  induction l with
  | nil => simp [List.find?] at h
  | cons r rest ih =>
    by_cases hs : r.id = i
    · have hfind : List.find? (fun t => decide (t.id = i)) (r :: rest) = some r :=
        List.find?_cons_of_pos _ (decide_eq_true hs)
      rw [hfind] at h
      obtain rfl : r = r₀ := by injection h
      unfold updateFirstRecord
      rw [if_pos hs]
      exact List.mem_cons_self _ _
    · have hfind : List.find? (fun t => decide (t.id = i)) (r :: rest)
          = List.find? (fun t => decide (t.id = i)) rest :=
        List.find?_cons_of_neg _ (by simpa using hs)
      rw [hfind] at h
      unfold updateFirstRecord
      rw [if_neg hs]
      exact List.mem_cons_of_mem _ (ih h)

theorem updateFirstLog_find (i : Int) (u : MaintenanceLogUpdate)
    (l : List MaintenanceLog) (l₀ : MaintenanceLog)
    (h : l.find? (fun g => decide (g.id = i)) = some l₀) :
    applyLogUpdate l₀ u ∈ updateFirstLog l i u := by
  induction l with
  | nil => simp [List.find?] at h
  | cons g rest ih =>
    by_cases hs : g.id = i
    · have hfind : List.find? (fun t => decide (t.id = i)) (g :: rest) = some g :=
        List.find?_cons_of_pos _ (decide_eq_true hs)
      rw [hfind] at h
      obtain rfl : g = l₀ := by injection h
      unfold updateFirstLog
      rw [if_pos hs]
      exact List.mem_cons_self _ _
    · have hfind : List.find? (fun t => decide (t.id = i)) (g :: rest)
          = List.find? (fun t => decide (t.id = i)) rest :=
        List.find?_cons_of_neg _ (by simpa using hs)
      rw [hfind] at h
      unfold updateFirstLog
      rw [if_neg hs]
      exact List.mem_cons_of_mem _ (ih h)

/-- C8: all four update operations are partial: every stored row is
either left untouched or is the requested row patched so that present
fields take the supplied values and absent fields keep their previous
values; the other tables are never touched; and when the requested id is
found its row is patched according to the request.  The four blocks cover
`update_shift`, `update_equipment`, `update_production_record` and
`update_maintenance_log`. -/
theorem update_partial_semantics (db : DB) (i j k m : Int)
    (u : MiningShiftUpdate) (v : EquipmentUpdate)
    (w : ProductionRecordUpdate) (x : MaintenanceLogUpdate) :
    (List.Forall₂ (fun s₀ s₁ => s₁ = s₀ ∨ (s₀.id = i ∧ shiftPatchOK u s₀ s₁))
        db.shifts (update_shift db i u).shifts
      ∧ (update_shift db i u).records = db.records
      ∧ (update_shift db i u).equipment = db.equipment
      ∧ (update_shift db i u).logs = db.logs
      ∧ (∀ s₀, db.shifts.find? (fun s => decide (s.id = i)) = some s₀ →
          ∃ s₁ ∈ (update_shift db i u).shifts, shiftPatchOK u s₀ s₁))
    ∧ (List.Forall₂ (fun e₀ e₁ => e₁ = e₀ ∨ (e₀.id = j ∧ equipPatchOK v e₀ e₁))
        db.equipment (update_equipment db j v).equipment
      ∧ (update_equipment db j v).shifts = db.shifts
      ∧ (update_equipment db j v).records = db.records
      ∧ (update_equipment db j v).logs = db.logs
      ∧ (∀ e₀, db.equipment.find? (fun e => decide (e.id = j)) = some e₀ →
          ∃ e₁ ∈ (update_equipment db j v).equipment, equipPatchOK v e₀ e₁))
    ∧ (List.Forall₂ (fun r₀ r₁ => r₁ = r₀ ∨ (r₀.id = k ∧ recordPatchOK w r₀ r₁))
        db.records (update_production_record db k w).records
      ∧ (update_production_record db k w).shifts = db.shifts
      ∧ (update_production_record db k w).equipment = db.equipment
      ∧ (update_production_record db k w).logs = db.logs
      ∧ (∀ r₀, db.records.find? (fun r => decide (r.id = k)) = some r₀ →
          ∃ r₁ ∈ (update_production_record db k w).records, recordPatchOK w r₀ r₁))
    ∧ (List.Forall₂ (fun l₀ l₁ => l₁ = l₀ ∨ (l₀.id = m ∧ logPatchOK x l₀ l₁))
        db.logs (update_maintenance_log db m x).logs
      ∧ (update_maintenance_log db m x).shifts = db.shifts
      ∧ (update_maintenance_log db m x).records = db.records
      ∧ (update_maintenance_log db m x).equipment = db.equipment
      ∧ (∀ l₀, db.logs.find? (fun l => decide (l.id = m)) = some l₀ →
          ∃ l₁ ∈ (update_maintenance_log db m x).logs, logPatchOK x l₀ l₁)) := by
  refine ⟨⟨updateFirstShift_forall₂ i u db.shifts, rfl, rfl, rfl, ?_⟩,
    ⟨updateFirstEquipment_forall₂ j v db.equipment, rfl, rfl, rfl, ?_⟩,
    ⟨updateFirstRecord_forall₂ k w db.records, rfl, rfl, rfl, ?_⟩,
    ⟨updateFirstLog_forall₂ m x db.logs, rfl, rfl, rfl, ?_⟩⟩
  · intro s₀ h
    exact ⟨applyShiftUpdate s₀ u, updateFirstShift_find i u db.shifts s₀ h,
      applyShiftUpdate_ok s₀ u⟩
  · intro e₀ h
    exact ⟨applyEquipmentUpdate e₀ v, updateFirstEquipment_find j v db.equipment e₀ h,
      applyEquipmentUpdate_ok e₀ v⟩
  · intro r₀ h
    exact ⟨applyRecordUpdate r₀ w, updateFirstRecord_find k w db.records r₀ h,
      applyRecordUpdate_ok r₀ w⟩
  · intro l₀ h
    exact ⟨applyLogUpdate l₀ x, updateFirstLog_find m x db.logs l₀ h,
      applyLogUpdate_ok l₀ x⟩

/-- C8 witness: in the concrete database, shift 1 is found and the update
that only supplies `mine_section` and `end_time` patches it per the
partial-update contract. -/
theorem update_partial_semantics_witness :
    (exDB.shifts.find? (fun s => decide (s.id = 1)) = some (mkShift 1 10))
    ∧ (∃ s₁ ∈ (update_shift exDB 1 exShiftU).shifts,
        shiftPatchOK exShiftU (mkShift 1 10) s₁)
    ∧ (exDB.logs.find? (fun l => decide (l.id = 1)) = some (mkLog 1 false))
    ∧ (∃ l₁ ∈ (update_maintenance_log exDB 1 exLogU).logs,
        logPatchOK exLogU (mkLog 1 false) l₁) :=
  ⟨by decide,
    (update_partial_semantics exDB 1 1 1 1 exShiftU exEquipU exRecU exLogU).1.2.2.2.2
      (mkShift 1 10) (by decide),
    by decide,
    (update_partial_semantics exDB 1 1 1 1 exShiftU exEquipU exRecU exLogU).2.2.2.2.2.2.2
      (mkLog 1 false) (by decide)⟩

/-- C4: when no shift date falls in the requested range, the period
statistics are all-zero (0.0 floats, 0 count, never null) with the
requested period echoed back, and no error is raised. -/
theorem production_stats_empty_range (db : DB) (a b : Int)
    (h : ∀ s ∈ db.shifts, ¬ (a ≤ s.shift_date ∧ s.shift_date ≤ b)) :
    get_production_stats db a b =
      { total_ore_extracted := 0, total_waste_removed := 0,
        average_ore_grade := 0, total_shifts := 0,
        average_workers_per_shift := 0, period_start := a, period_end := b } := by
  have hjoined : prodJoinInRange db a b = [] := by
    unfold prodJoinInRange
    rw [List.filter_eq_nil_iff]
    intro p hp hcon
    have hs : p.2 ∈ db.shifts := by
      unfold joinRecordsShifts at hp
      obtain ⟨r, hr, hmem⟩ := List.mem_flatMap.mp hp
      obtain ⟨s, hsf, rfl⟩ := List.mem_map.mp hmem
      exact (List.mem_filter.mp hsf).1
    rw [Bool.and_eq_true] at hcon
    exact h p.2 hs ⟨of_decide_eq_true hcon.1, of_decide_eq_true hcon.2⟩
  have hShiftsIn : db.shifts.filter
      (fun s => decide (a ≤ s.shift_date) && decide (s.shift_date ≤ b)) = [] := by
    rw [List.filter_eq_nil_iff]
    intro s hs hcon
    rw [Bool.and_eq_true] at hcon
    exact h s hs ⟨of_decide_eq_true hcon.1, of_decide_eq_true hcon.2⟩
  unfold get_production_stats
  rw [hjoined, hShiftsIn]
  rfl

/-- C4 witness: both shifts of the concrete database lie outside the
range `[100, 200]`, and the statistics for that range are all-zero with
the period echoed. -/
theorem production_stats_empty_range_witness :
    (∀ s ∈ exDB.shifts, ¬ (100 ≤ s.shift_date ∧ s.shift_date ≤ 200))
    ∧ get_production_stats exDB 100 200 =
      { total_ore_extracted := 0, total_waste_removed := 0,
        average_ore_grade := 0, total_shifts := 0,
        average_workers_per_shift := 0, period_start := 100, period_end := 200 } :=
  ⟨by decide, production_stats_empty_range exDB 100 200 (by decide)⟩

/-- C6: the daily production rollup contains no two entries with the same
date and is strictly ascending by date. -/
theorem daily_production_dates_strict (db : DB) (a b : Int) :
    List.Pairwise (fun x y => x.date < y.date) (get_daily_production db a b) := by
  unfold get_daily_production
  rw [List.pairwise_map]
  have hsorted : List.Sorted (fun x y => x ≤ y) (dailyDates db a b) := by
    unfold dailyDates
    exact List.sorted_insertionSort _ _
  have hnodup : (dailyDates db a b).Nodup := by
    unfold dailyDates
    exact ((List.perm_insertionSort _ _).nodup_iff).mpr (List.nodup_dedup _)
  exact List.Pairwise.imp (fun h => h) (hsorted.lt_of_le hnodup)

/-- C7: each rollup entry's `equipment_used` is the number of distinct
non-null equipment ids among that date's joined production records --
duplicated references count once, null references count nothing. -/
theorem daily_equipment_used_distinct (db : DB) (a b : Int) :
    ∀ e ∈ get_daily_production db a b,
      e.equipment_used
        = ((dailyGroup db a b e.date).filterMap
            (fun p => p.1.equipment_id)).toFinset.card := by
  intro e he
  unfold get_daily_production at he
  obtain ⟨d, hd, rfl⟩ := List.mem_map.mp he
  show ((dailyGroup db a b d).filterMap (fun p => p.1.equipment_id)).dedup.length
    = ((dailyGroup db a b d).filterMap (fun p => p.1.equipment_id)).toFinset.card
  rw [List.card_toFinset]

/-- C7 witness: in the concrete database the single rollup entry for date
10 counts equipment 1 once although two records reference it, and ignores
the record with no equipment. -/
theorem daily_equipment_used_distinct_witness :
    ({ date := 10, total_ore := 0, total_waste := 0, shift_count := 1,
       equipment_used := 1 } : DailyProduction) ∈ get_daily_production exDB7 0 15
    ∧ (1 : Nat) = ((dailyGroup exDB7 0 15 10).filterMap
        (fun p => p.1.equipment_id)).toFinset.card :=
  ⟨by simp [get_daily_production, dailyDates, dailyGroup, prodJoinInRange,
      joinRecordsShifts, exDB7, mkShift, mkRecord0, sqlSum,
      List.insertionSort, List.orderedInsert],
    daily_equipment_used_distinct exDB7 0 15
      { date := 10, total_ore := 0, total_waste := 0, shift_count := 1,
        equipment_used := 1 }
      (by simp [get_daily_production, dailyDates, dailyGroup, prodJoinInRange,
        joinRecordsShifts, exDB7, mkShift, mkRecord0, sqlSum,
        List.insertionSort, List.orderedInsert])⟩

theorem sum_map_pair_fst (r : ProductionRecord) (l : List MiningShift)
    (f : ProductionRecord → ℚ) :
    ((l.map (fun s => (r, s))).map (fun p => f p.1)).sum
      = (l.map (fun _ => f r)).sum := by
  induction l with
  | nil => rfl
  | cons s t ih => simp only [List.map_cons, List.sum_cons, ih]

theorem sum_map_const_q {α : Type} (c : ℚ) (l : List α) :
    (l.map (fun _ => c)).sum = l.length • c := by
  induction l with
  | nil => simp
  | cons a t ih =>
    simp only [List.map_cons, List.sum_cons, ih, List.length_cons, succ_nsmul]
    ring

theorem length_filter_unique_key {α : Type} (key : α → Int) (x : Int)
    (p : α → Bool) (l : List α) (hnd : (l.map key).Nodup) :
    (l.filter (fun s => p s && decide (x = key s))).length
      = if l.any (fun s => p s && decide (x = key s)) then 1 else 0 := by
  induction l with
  | nil => rfl
  | cons a t ih =>
    rw [List.map_cons, List.nodup_cons] at hnd
    obtain ⟨hna, hnd'⟩ := hnd
    by_cases hq : (p a && decide (x = key a)) = true
    · have hq' := hq
      rw [Bool.and_eq_true] at hq'
      have hxa : x = key a := of_decide_eq_true hq'.2
      have hft : t.filter (fun s => p s && decide (x = key s)) = [] := by
        rw [List.filter_eq_nil_iff]
        intro s hs hcon
        rw [Bool.and_eq_true] at hcon
        have hxs : x = key s := of_decide_eq_true hcon.2
        have hkey : key a = key s := hxa.symm.trans hxs
        exact hna (by rw [hkey]; exact List.mem_map_of_mem key hs)
      simp [List.filter_cons, hq, hft, List.any_cons]
    · simp [List.filter_cons, hq, List.any_cons, ih hnd']

theorem prodJoinInRange_eq (db : DB) (a b : Int) :
    prodJoinInRange db a b
      = db.records.flatMap (fun r =>
          (db.shifts.filter (fun s =>
            (decide (a ≤ s.shift_date) && decide (s.shift_date ≤ b))
              && decide (r.shift_id = s.id))).map (fun s => (r, s))) := by
  unfold prodJoinInRange joinRecordsShifts
  rw [List.filter_flatMap]
  congr 1
  funext r
  rw [List.filter_map, List.filter_filter]
  rfl

theorem sum_ore_join (db : DB) (a b : Int)
    (hids : (db.shifts.map (fun s => s.id)).Nodup) :
    ((prodJoinInRange db a b).map (fun p => p.1.ore_extracted_tonnes)).sum
      = ((db.records.filter (parentShiftInRange db a b)).map
          (fun r => r.ore_extracted_tonnes)).sum := by
  rw [prodJoinInRange_eq]
  induction db.records with
  | nil => rfl
  | cons r t ih =>
    rw [List.flatMap_cons, List.map_append, List.sum_append, ih]
    have hgroup :
        (((db.shifts.filter (fun s =>
            (decide (a ≤ s.shift_date) && decide (s.shift_date ≤ b))
              && decide (r.shift_id = s.id))).map (fun s => (r, s))).map
          (fun p => p.1.ore_extracted_tonnes)).sum
        = if parentShiftInRange db a b r then r.ore_extracted_tonnes else 0 := by
      rw [sum_map_pair_fst, sum_map_const_q,
        length_filter_unique_key (fun s => s.id) r.shift_id _ db.shifts hids]
      unfold parentShiftInRange
      by_cases hany : db.shifts.any (fun s =>
          (decide (a ≤ s.shift_date) && decide (s.shift_date ≤ b))
            && decide (r.shift_id = s.id)) = true
      · rw [if_pos hany, if_pos hany, one_smul]
      · rw [if_neg hany, if_neg hany, zero_smul]
    rw [hgroup]
    by_cases hp : parentShiftInRange db a b r = true
    · rw [if_pos hp, List.filter_cons_of_pos hp, List.map_cons, List.sum_cons]
    · rw [if_neg hp, List.filter_cons_of_neg hp, zero_add]

/-- C1: `total_ore_extracted` of the period statistics equals the sum of
`ore_extracted_tonnes` over exactly those production records whose parent
shift's date lies in `[start_date, end_date]`, both ends inclusive. -/
theorem production_stats_total_ore (db : DB) (a b : Int)
    (hids : (db.shifts.map (fun s => s.id)).Nodup) :
    (get_production_stats db a b).total_ore_extracted
      = ((db.records.filter (parentShiftInRange db a b)).map
          (fun r => r.ore_extracted_tonnes)).sum := by
  have hproj : (get_production_stats db a b).total_ore_extracted
      = (sqlSum ((prodJoinInRange db a b).map
          (fun p => p.1.ore_extracted_tonnes))).getD 0 := rfl
  rw [hproj, sqlSum_getD]
  exact sum_ore_join db a b hids

/-- C1 witness: the concrete database has distinct shift ids, and the
statistics for `[0, 15]` sum exactly the records of shift 1. -/
theorem production_stats_total_ore_witness :
    ((exDB.shifts.map (fun s => s.id)).Nodup)
    ∧ (get_production_stats exDB 0 15).total_ore_extracted
        = ((exDB.records.filter (parentShiftInRange exDB 0 15)).map
            (fun r => r.ore_extracted_tonnes)).sum :=
  ⟨by decide, production_stats_total_ore exDB 0 15 (by decide)⟩

theorem utilKeyed_snd_ore (db : DB) (p : Option ℚ × UtilRow)
    (hp : p ∈ utilKeyed db) :
    p.2.total_ore_extracted = p.1.getD 0 := by
  unfold utilKeyed at hp
  obtain ⟨e, he, rfl⟩ := List.mem_map.mp hp
  rfl

theorem sqlSum_eq_none_iff (l : List ℚ) : sqlSum l = none ↔ l = [] := by
  cases l <;> simp [sqlSum]

theorem utilKeyed_count_none (db : DB) (p : Option ℚ × UtilRow)
    (hp : p ∈ utilKeyed db) :
    p.2.total_production_records = 0 ↔ p.1 = none := by
  unfold utilKeyed at hp
  obtain ⟨e, he, rfl⟩ := List.mem_map.mp hp
  show (equipGroup db e).length = 0
    ↔ sqlSum ((equipGroup db e).map (fun r => r.ore_extracted_tonnes)) = none
  rw [List.length_eq_zero, sqlSum_eq_none_iff, List.map_eq_nil_iff]

/-- C2 counterexample: on the app engine (PostgreSQL, default DESC null
ordering NULLS FIRST) the record-free equipment 2 has a NULL summed ore
key and sorts before equipment 1 with 1.0 extracted tonnes, so the
reported sequence is 0.0 followed by 1.0 -- not non-increasing, and the
null-sum entry is first, not last. -/
theorem utilization_sorted_cex :
    ¬ List.Pairwise (fun x y => y.total_ore_extracted ≤ x.total_ore_extracted)
        (get_equipment_utilization exDBc2) := by
  intro h
  have h2 : List.Pairwise (fun x y : ℚ => y ≤ x)
      ((get_equipment_utilization exDBc2).map (fun u => u.total_ore_extracted)) :=
    List.pairwise_map.mpr h
  have hmap : (get_equipment_utilization exDBc2).map
      (fun u => u.total_ore_extracted) = [0, 1] := by
    simp [get_equipment_utilization, utilKeyed, utilKeyLE, utilDescLE,
      equipGroup, exDBc2, mkEquip, mkRecord, mkShift, sqlSum,
      List.insertionSort, List.orderedInsert]
  rw [hmap] at h2
  have h1 : (1 : ℚ) ≤ 0 := (List.pairwise_cons.mp h2).1 1 (by simp)
  exact absurd h1 (by norm_num)

/-- C2 amended: under the engine's NULLS FIRST DESC ordering, the
utilization sequence is non-increasing in `total_ore_extracted` only
across the entries that have production records: once an entry with
records appears, every later entry also has records and no larger ore
total; record-free equipment (NULL sum) sorts first and is reported with
`total_ore_extracted = 0.0`. -/
theorem utilization_sorted_pg (db : DB) :
    List.Pairwise (fun x y => x.total_production_records ≠ 0 →
        (y.total_production_records ≠ 0
          ∧ y.total_ore_extracted ≤ x.total_ore_extracted))
      (get_equipment_utilization db)
    ∧ ∀ u ∈ get_equipment_utilization db,
        u.total_production_records = 0 → u.total_ore_extracted = 0 := by
  have hperm : (List.insertionSort utilKeyLE (utilKeyed db)).Perm (utilKeyed db) :=
    List.perm_insertionSort _ _
  have hsorted : List.Pairwise utilKeyLE
      (List.insertionSort utilKeyLE (utilKeyed db)) :=
    List.sorted_insertionSort _ _
  constructor
  · unfold get_equipment_utilization
    rw [List.pairwise_map]
    refine hsorted.imp_of_mem ?_
    intro p q hpmem hqmem hle hx
    have hpin : p ∈ utilKeyed db := hperm.mem_iff.mp hpmem
    have hqin : q ∈ utilKeyed db := hperm.mem_iff.mp hqmem
    have hpo := utilKeyed_snd_ore db p hpin
    have hqo := utilKeyed_snd_ore db q hqin
    have hpk := utilKeyed_count_none db p hpin
    have hqk := utilKeyed_count_none db q hqin
    unfold utilKeyLE at hle
    rcases hp1 : p.1 with _ | u
    · exact absurd (hpk.mpr hp1) hx
    · rcases hq1 : q.1 with _ | v
      · rw [hp1, hq1] at hle
        exact (hle : False).elim
      · refine ⟨fun h0 => ?_, ?_⟩
        · have hqn := hqk.mp h0
          rw [hq1] at hqn
          exact Option.some_ne_none v hqn
        · rw [hp1, hq1] at hle
          rw [hpo, hqo, hp1, hq1]
          simpa using (hle : v ≤ u)
  · intro u hu h0
    unfold get_equipment_utilization at hu
    obtain ⟨p, hp, rfl⟩ := List.mem_map.mp hu
    have hpin : p ∈ utilKeyed db := hperm.mem_iff.mp hp
    have h1 : p.1 = none := (utilKeyed_count_none db p hpin).mp h0
    rw [utilKeyed_snd_ore db p hpin, h1]
    rfl

/-- C2 amended witness: in the counterexample database, the record-free
equipment 2 appears with zero records, and the amended theorem reports
its ore total as 0. -/
theorem utilization_sorted_pg_witness :
    (exRow2 ∈ get_equipment_utilization exDBc2)
    ∧ exRow2.total_ore_extracted = 0 :=
  ⟨by simp [get_equipment_utilization, utilKeyed, utilKeyLE, utilDescLE,
      equipGroup, exDBc2, exRow2, mkEquip, mkRecord, mkShift, sqlSum,
      List.insertionSort, List.orderedInsert],
    (utilization_sorted_pg exDBc2).2 exRow2
      (by simp [get_equipment_utilization, utilKeyed, utilKeyLE, utilDescLE,
        equipGroup, exDBc2, exRow2, mkEquip, mkRecord, mkShift, sqlSum,
        List.insertionSort, List.orderedInsert])
      rfl⟩

/-- C5: for every database state the utilization report has exactly one
entry per equipment row (the multiset of reported equipment codes is a
permutation of the stored ones), and every equipment with no production
records is reported with `total_production_records = 0` and
`total_ore_extracted = 0.0`. -/
theorem utilization_covers_equipment (db : DB) :
    ((get_equipment_utilization db).map (fun u => u.equipment_code)).Perm
      (db.equipment.map (fun q => q.equipment_code))
    ∧ ∀ e ∈ db.equipment, (∀ r ∈ db.records, r.equipment_id ≠ some e.id) →
        ∃ u ∈ get_equipment_utilization db,
          u.equipment_code = e.equipment_code
          ∧ u.total_production_records = 0 ∧ u.total_ore_extracted = 0 := by
  constructor
  · unfold get_equipment_utilization
    rw [List.map_map]
    have h1 : ((List.insertionSort utilKeyLE (utilKeyed db)).map
        ((fun u : UtilRow => u.equipment_code)
          ∘ (fun p : Option ℚ × UtilRow => p.2))).Perm
        ((utilKeyed db).map ((fun u : UtilRow => u.equipment_code)
          ∘ (fun p : Option ℚ × UtilRow => p.2))) :=
      (List.perm_insertionSort _ _).map _
    have h2 : (utilKeyed db).map ((fun u : UtilRow => u.equipment_code)
        ∘ (fun p : Option ℚ × UtilRow => p.2))
        = db.equipment.map (fun q => q.equipment_code) := by
      unfold utilKeyed
      rw [List.map_map]
      rfl
    rw [h2] at h1
    exact h1
  · intro e he hnone
    have hg : equipGroup db e = [] := by
      unfold equipGroup
      rw [List.filter_eq_nil_iff]
      intro r hr hcon
      exact hnone r hr (of_decide_eq_true hcon)
    have hk : (sqlSum ((equipGroup db e).map (fun r => r.ore_extracted_tonnes)),
        ({ equipment_code := e.equipment_code, name := e.name,
           equipment_type := e.equipment_type, status := e.status,
           total_production_records := (equipGroup db e).length,
           total_ore_extracted := (sqlSum ((equipGroup db e).map
             (fun r => r.ore_extracted_tonnes))).getD 0 } : UtilRow))
        ∈ utilKeyed db := by
      unfold utilKeyed
      exact List.mem_map_of_mem _ he
    have hmem := List.mem_map_of_mem (fun p : Option ℚ × UtilRow => p.2)
      (((List.perm_insertionSort utilKeyLE (utilKeyed db)).mem_iff).mpr hk)
    refine ⟨_, hmem, rfl, ?_, ?_⟩
    · show (equipGroup db e).length = 0
      rw [hg]
      rfl
    · show (sqlSum ((equipGroup db e).map
          (fun r => r.ore_extracted_tonnes))).getD 0 = 0
      rw [hg]
      rfl

/-- C5 witness: equipment 2 of the concrete database has no production
records; the report covers both equipment rows and reports equipment 2
with zero records and zero ore. -/
theorem utilization_covers_equipment_witness :
    (mkEquip 2 "EQ-2" none ∈ exDB.equipment)
    ∧ (∀ r ∈ exDB.records, r.equipment_id ≠ some (mkEquip 2 "EQ-2" none).id)
    ∧ (∃ u ∈ get_equipment_utilization exDB,
        u.equipment_code = (mkEquip 2 "EQ-2" none).equipment_code
        ∧ u.total_production_records = 0 ∧ u.total_ore_extracted = 0) :=
  ⟨List.mem_cons_of_mem _ (List.mem_cons_self _ _), by decide,
    (utilization_covers_equipment exDB).2 (mkEquip 2 "EQ-2" none)
      (List.mem_cons_of_mem _ (List.mem_cons_self _ _)) (by decide)⟩

/-- C9: in the equipment-metrics job the efficiency ratio is derived only
under the guard: when the stored operating hours are missing or not
strictly positive, or the summed ore is NULL, the division is skipped and
the reported efficiency is 0; when the hours are positive and the sum is
a non-zero value the reported efficiency is the rounded quotient. -/
theorem equipment_metrics_efficiency_guard (db : DB) (e : Equipment)
    (he : e ∈ db.equipment) :
    ∃ m ∈ calculate_equipment_metrics db, m.equipment_id = e.id
      ∧ (e.operating_hours = none → m.efficiency_tonnes_per_hour = 0)
      ∧ (∀ h, e.operating_hours = some h → h ≤ 0 →
          m.efficiency_tonnes_per_hour = 0)
      ∧ (sqlSum ((equipGroup db e).map (fun r => r.ore_extracted_tonnes)) = none
          → m.efficiency_tonnes_per_hour = 0)
      ∧ (∀ h o, e.operating_hours = some h → 0 < h →
          sqlSum ((equipGroup db e).map (fun r => r.ore_extracted_tonnes)) = some o
          → o ≠ 0 → m.efficiency_tonnes_per_hour = round2 (o / h)) := by
  unfold calculate_equipment_metrics
  refine ⟨_, List.mem_map_of_mem _ he, rfl, ?_, ?_, ?_, ?_⟩
  · intro hoh
    show (if truthyOptQ e.operating_hours
        && decide ((0 : ℚ) < e.operating_hours.getD 0)
        && truthyOptQ (sqlSum ((equipGroup db e).map
            (fun r => r.ore_extracted_tonnes))) then
      round2 ((sqlSum ((equipGroup db e).map
          (fun r => r.ore_extracted_tonnes))).getD 0 / e.operating_hours.getD 0)
      else 0) = 0
    rw [hoh]
    simp [truthyOptQ]
  · intro h hoh hle
    show (if truthyOptQ e.operating_hours
        && decide ((0 : ℚ) < e.operating_hours.getD 0)
        && truthyOptQ (sqlSum ((equipGroup db e).map
            (fun r => r.ore_extracted_tonnes))) then
      round2 ((sqlSum ((equipGroup db e).map
          (fun r => r.ore_extracted_tonnes))).getD 0 / e.operating_hours.getD 0)
      else 0) = 0
    rw [hoh]
    simp [truthyOptQ, not_lt.mpr hle]
  · intro hsum
    show (if truthyOptQ e.operating_hours
        && decide ((0 : ℚ) < e.operating_hours.getD 0)
        && truthyOptQ (sqlSum ((equipGroup db e).map
            (fun r => r.ore_extracted_tonnes))) then
      round2 ((sqlSum ((equipGroup db e).map
          (fun r => r.ore_extracted_tonnes))).getD 0 / e.operating_hours.getD 0)
      else 0) = 0
    rw [hsum]
    simp [truthyOptQ]
  · intro h o hoh hpos hsum hone
    show (if truthyOptQ e.operating_hours
        && decide ((0 : ℚ) < e.operating_hours.getD 0)
        && truthyOptQ (sqlSum ((equipGroup db e).map
            (fun r => r.ore_extracted_tonnes))) then
      round2 ((sqlSum ((equipGroup db e).map
          (fun r => r.ore_extracted_tonnes))).getD 0 / e.operating_hours.getD 0)
      else 0) = round2 (o / h)
    rw [hoh, hsum]
    simp [truthyOptQ, hpos, ne_of_gt hpos, hone]

/-- C9 witness: equipment 1 of the record-free database has positive
operating hours; the guard conditions are established at that input. -/
theorem equipment_metrics_efficiency_guard_witness :
    (mkEquip 1 "EQ-1" (some 2) ∈ exDB2.equipment)
    ∧ (∃ m ∈ calculate_equipment_metrics exDB2,
        m.equipment_id = (mkEquip 1 "EQ-1" (some 2)).id
        ∧ ((mkEquip 1 "EQ-1" (some 2)).operating_hours = none →
            m.efficiency_tonnes_per_hour = 0)
        ∧ (∀ h, (mkEquip 1 "EQ-1" (some 2)).operating_hours = some h → h ≤ 0 →
            m.efficiency_tonnes_per_hour = 0)
        ∧ (sqlSum ((equipGroup exDB2 (mkEquip 1 "EQ-1" (some 2))).map
            (fun r => r.ore_extracted_tonnes)) = none →
            m.efficiency_tonnes_per_hour = 0)
        ∧ (∀ h o, (mkEquip 1 "EQ-1" (some 2)).operating_hours = some h → 0 < h →
            sqlSum ((equipGroup exDB2 (mkEquip 1 "EQ-1" (some 2))).map
              (fun r => r.ore_extracted_tonnes)) = some o →
            o ≠ 0 → m.efficiency_tonnes_per_hour = round2 (o / h))) :=
  ⟨List.mem_cons_self _ _,
    equipment_metrics_efficiency_guard exDB2 (mkEquip 1 "EQ-1" (some 2))
      (List.mem_cons_self _ _)⟩
